import Mathlib

/-!
Verification of the rendering/layout engine in `src/display.c` (an on-screen
query launcher's drawing core).  The C code is shallowly embedded: `uint32_t`
arithmetic is modelled as `Nat` with explicit wrap-around modulo `2^32`,
pointer-based buffer mutation as `List.set`, and the paint side effects of one
repaint as an explicit event trace.
-/

namespace Lighthouse

/-- Wrap-around 32-bit addition, modelling C `uint32_t` `a + b`. -/
def add32 (a b : Nat) : Nat := (a + b) % 4294967296

/-- Wrap-around 32-bit subtraction, modelling C `uint32_t` `a - b`
(for operands below `2^32`). -/
def sub32 (a b : Nat) : Nat := (a + 4294967296 - b) % 4294967296

/-- Wrap-around 32-bit multiplication, modelling C `uint32_t` `a * b`. -/
def mul32 (a b : Nat) : Nat := (a * b) % 4294967296

/-- The highlight clamp at the top of `draw_result_text`
(display.c lines 576-578):
`if (global.result_count - 1 < global.result_highlight)
   global.result_highlight = global.result_count - 1;`. -/
def clampHighlight (count highlight : Nat) : Nat :=
  if sub32 count 1 < highlight then sub32 count 1 else highlight

/-- Output of the scroll recompute in `draw_result_text`:
the new `global.result_offset`, the new `global.result_highlight`
and the local `display_results`. -/
structure ScrollOut where
  offset : Nat
  highlight : Nat
  display : Nat
deriving DecidableEq

/-- The scroll-window recompute of `draw_result_text`
(display.c lines 574-598), with `maxRows` standing for the local
`max_results = settings.max_height / settings.height - 1` and the branches
in the source's order:
reset for a small result set; pin the window to the tail; catch the
highlight at the bottom edge while scrolling down (which also recomputes
`display_results = count - offset`); pull the window up to the highlight. -/
def draw_result_text_recompute (count maxRows offset highlight : Nat) : ScrollOut :=
  if count ≤ maxRows then
    ⟨0, clampHighlight count highlight, min count maxRows⟩
  else if sub32 count maxRows < offset then
    ⟨sub32 count maxRows, clampHighlight count highlight, min count maxRows⟩
  else if add32 offset (min count maxRows) < add32 (clampHighlight count highlight) 1 then
    ⟨sub32 (clampHighlight count highlight) (sub32 (min count maxRows) 1),
     clampHighlight count highlight,
     sub32 count (sub32 (clampHighlight count highlight) (sub32 (min count maxRows) 1))⟩
  else if clampHighlight count highlight < offset then
    ⟨clampHighlight count highlight, clampHighlight count highlight, min count maxRows⟩
  else
    ⟨offset, clampHighlight count highlight, min count maxRows⟩

/-- The height of the description panel's background rectangle in `draw_desc`
(display.c line 485): `desc_height = settings.height * (global.result_count + 1)`,
computed from the TOTAL result count, with no cap. -/
def draw_desc_height (height count : Nat) : Nat := mul32 height (add32 count 1)

/-- The local `max_results` of `draw_result_text` (display.c line 580):
`settings.max_height / settings.height - 1`. -/
def max_results (max_height height : Nat) : Nat := sub32 (max_height / height) 1

/-- The window/surface height chosen in `draw_result_text`
(display.c lines 607 and 618):
`min(settings.height * (global.result_count + 1), settings.max_height)`. -/
def new_height (height count max_height : Nat) : Nat :=
  min (mul32 height (add32 count 1)) max_height

/-- The style modifier enumeration consumed by `draw_text` and the image
drawers (the `modifier_type_t` values dispatched on in display.c). -/
inductive Modifier where
  | NONE : Modifier
  | CENTER : Modifier
  | BOLD : Modifier
deriving DecidableEq

/-- The x-offset computation of the Pango variant of `draw_text`
(display.c lines 121-135): the modifier loop runs before the layout is
measured, and each `CENTER` adds `(line_width - charac->data_length) / 2`
to `offset->x`; `BOLD` only changes the font weight and `NONE` is a no-op.
Modelled from the spec: `data_length` (set by the external
`parse_result_line`, which is not part of this file's source) is the run's
measured rendered extent. -/
def draw_text_pango_x (mods : List Modifier) (line_width data_length x : Nat) : Nat :=
  mods.foldl (fun acc m =>
    match m with
    | Modifier.CENTER => add32 acc (sub32 line_width data_length / 2)
    | _ => acc) x

/-- The x-offset computation of the cairo (NO_PANGO) variant of `draw_text`
(display.c lines 169-185): each `CENTER` saves `tmp = offset->x` and adds
`(line_width - tmp - charac->data_length) / 2`; `BOLD` only selects the bold
font face.  `data_length` as in `draw_text_pango_x`. -/
def draw_text_cairo_x (mods : List Modifier) (line_width data_length x : Nat) : Nat :=
  mods.foldl (fun acc m =>
    match m with
    | Modifier.CENTER => add32 acc (sub32 (sub32 line_width acc) data_length / 2)
    | _ => acc) x

/-- The scaled target size of an image, `{width, height}`; `{0, 0}` signals
a failed load (the `image_format_t` of display.c). -/
structure ImageFormat where
  width : Nat
  height : Nat
deriving DecidableEq

/-- The image fitter `get_new_size` (display.c lines 209-220): only an image
exceeding the available rectangle in some dimension is rescaled by
`prop = min(win_size_x / width, win_size_y / height)`; otherwise the passed
`format` is left untouched.  The C `float` arithmetic is modelled as exact
rational arithmetic, and the float-to-`uint32_t` assignment as truncation
toward zero. -/
def get_new_size (width height win_size_x win_size_y : Nat)
    (format : ImageFormat) : ImageFormat :=
  if win_size_x < width ∨ win_size_y < height then
    { width :=
        (⌊min ((win_size_x : ℚ) / (width : ℚ)) ((win_size_y : ℚ) / (height : ℚ)) *
            (width : ℚ)⌋).toNat,
      height :=
        (⌊min ((win_size_x : ℚ) / (width : ℚ)) ((win_size_y : ℚ) / (height : ℚ)) *
            (height : ℚ)⌋).toNat }
  else format

/-- The environment-visible facts about one image file that display.c's
image path branches on: whether `access(path, F_OK)` succeeds (after the
`wordexp` expansion), the first byte read by `fgetc` (magic-number
sniffing), and the decode result of `gdk_pixbuf_new_from_file`
(`none` models a decode error, `some (w, h)` the natural pixel size). -/
structure FileInfo where
  found : Bool
  magic : Nat
  natural : Option (Nat × Nat)
deriving DecidableEq

/-- The target-size computation of `draw_image_with_gdk`
(display.c lines 233-264): on a decode error the function returns early and
the caller's `format` stays `{0, 0}`; otherwise `get_new_size` is called on
the caller's `format`, which `draw_image` initialized to `{0, 0}` — it is
never set to the natural size, so a fitting image keeps target `{0, 0}`. -/
def draw_image_with_gdk (f : FileInfo) (win_size_x win_size_y : Nat) : ImageFormat :=
  match f.natural with
  | none => ⟨0, 0⟩
  | some (w, h) => get_new_size w h win_size_x win_size_y ⟨0, 0⟩

/-- The format returned by `draw_image` (display.c lines 354-398):
`format` starts as `{0, 0}`; a file that cannot be located keeps it;
a known magic number (137 PNG, 255 JPEG, 47 GIF) dispatches to
`draw_image_with_gdk`; any other first byte is skipped with a diagnostic and
keeps `{0, 0}`. -/
def draw_image (f : FileInfo) (win_size_x win_size_y : Nat) : ImageFormat :=
  if f.found = false then ⟨0, 0⟩
  else if f.magic = 137 ∨ f.magic = 255 ∨ f.magic = 47 then
    draw_image_with_gdk f win_size_x win_size_y
  else ⟨0, 0⟩

/-- One draw command of the result-line loop in `draw_line`
(display.c lines 434-466), as produced by the external interpreter:
a text run carrying the advance `draw_text` returns for it, an image run,
a rule, or a line break. -/
inductive LineCmd where
  | text (adv : Nat) : LineCmd
  | image (f : FileInfo) : LineCmd
  | rule : LineCmd
  | lineBreak : LineCmd
deriving DecidableEq

/-- One iteration of `draw_line`'s loop acting on `offset.x`
(display.c lines 448-464): `DRAW_LINE` and `NEW_LINE` leave the offset;
`DRAW_IMAGE` adds `draw_image(cr, &d, offset, settings.width - offset.x,
settings.height).width`; `DRAW_TEXT` adds the advance returned by
`draw_text`. -/
def draw_line_step (width height x : Nat) : LineCmd → Nat
  | LineCmd.text adv => add32 x adv
  | LineCmd.image f => add32 x (draw_image f (sub32 width x) height).width
  | LineCmd.rule => x
  | LineCmd.lineBreak => x

/-- The `offset.x` evolution of `draw_line`'s whole loop over a list of
commands. -/
def draw_line_run (width height x : Nat) : List LineCmd → Nat
  | [] => x
  | c :: cs => draw_line_run width height (draw_line_step width height x c) cs

/-- One observable paint event of a full repaint: the query line paint
(`draw_typed_line` via `draw_query_text`), one result row paint
(`draw_line` for the result at a given index), the description panel paint
(`draw_desc`), or a surface flush (`cairo_surface_flush`). -/
inductive Ev where
  | query : Ev
  | row : Nat → Ev
  | desc : Ev
  | flush : Ev
deriving DecidableEq

/-- The event trace of `draw_result_text` (display.c lines 574-637):
after the scroll recompute, the description panel is painted when the
highlighted result has a description (`hasDesc`), then the row loop paints
the results at indices `offset, offset + 1, ...` (one per line, top to
bottom), and finally the surface is flushed. -/
def draw_result_text_trace (count maxRows offset highlight : Nat)
    (hasDesc : Bool) : List Ev :=
  (if hasDesc then [Ev.desc] else []) ++
    (List.range (draw_result_text_recompute count maxRows offset highlight).display).map
      (fun i => Ev.row ((draw_result_text_recompute count maxRows offset highlight).offset + i)) ++
    [Ev.flush]

/-- The event trace of `redraw_all` (display.c lines 639-642):
`draw_query_text` paints the query line and immediately flushes the surface
(lines 569-572), then `draw_result_text` runs. -/
def redraw_all_trace (count maxRows offset highlight : Nat)
    (hasDesc : Bool) : List Ev :=
  [Ev.query, Ev.flush] ++ draw_result_text_trace count maxRows offset highlight hasDesc

/-- The result indices of the row-paint events of a trace, in order. -/
def rowIndices (t : List Ev) : List Nat :=
  t.filterMap (fun e =>
    match e with
    | Ev.row i => some i
    | _ => none)

/-- Whether an event is a row paint. -/
def isRowEv : Ev → Bool
  | Ev.row _ => true
  | _ => false

/-- Whether an event is a surface flush. -/
def isFlushEv : Ev → Bool
  | Ev.flush => true
  | _ => false

/-- The "flushed only after the rows are painted" reading of the ordering
claim: every flush event of the trace comes after every row-paint event. -/
def flushOnlyAfterRows (t : List Ev) : Prop :=
  ∀ i, i < t.length → ∀ j, j < t.length →
    isFlushEv (t.getD i Ev.query) = true → isRowEv (t.getD j Ev.query) = true → j < i

/-- The truncate-and-restore idiom used around each draw call: save the byte
at the boundary, overwrite it with the terminator `0`, draw, and write the
saved byte back (display.c lines 69-72 for `draw_typed_line`, 445/465 for
`draw_line`, 514/554 for `draw_desc`).  The buffer is a byte list; reads and
writes beyond the end are the identity, as no in-range C access is modelled
by them. -/
def truncate_restore (buf : List Nat) (pos : Nat) : List Nat :=
  (buf.set pos 0).set pos (buf.getD pos 0)

/-- The effect of one `draw_typed_line` call on the caller's text buffer:
the cursor byte is saved, zeroed for the extents measurement, and
restored. -/
def draw_typed_line_buf (text : List Nat) (cursor : Nat) : List Nat :=
  truncate_restore text cursor

/-- The effect of one `draw_line` call on the caller's text buffer: one
truncate-and-restore at each run boundary the parser stops at. -/
def draw_line_buf (text : List Nat) (boundaries : List Nat) : List Nat :=
  boundaries.foldl truncate_restore text

/-- The effect of one `draw_desc` call on the caller's text buffer: the same
truncate-and-restore at each run boundary. -/
def draw_desc_buf (text : List Nat) (boundaries : List Nat) : List Nat :=
  boundaries.foldl truncate_restore text

/-- Setting an in-range or out-of-range position to the byte already there
is the identity. -/
theorem list_set_getD_self (l : List Nat) (n : Nat) : l.set n (l.getD n 0) = l := by
  induction l generalizing n with
  | nil => rfl
  | cons a t ih =>
    cases n with
    | zero => rfl
    | succ m =>
      simp only [List.getD_cons_succ, List.set_cons_succ, List.cons.injEq, true_and]
      exact ih m

/-- One truncate-and-restore leaves the buffer unchanged. -/
theorem truncate_restore_id (buf : List Nat) (pos : Nat) :
    truncate_restore buf pos = buf := by
  unfold truncate_restore
  rw [List.set_set]
  exact list_set_getD_self buf pos

/-- Any sequence of truncate-and-restores leaves the buffer unchanged. -/
theorem foldl_truncate_restore (boundaries : List Nat) (buf : List Nat) :
    boundaries.foldl truncate_restore buf = buf := by
  induction boundaries generalizing buf with
  | nil => rfl
  | cons p ps ih => rw [List.foldl_cons, truncate_restore_id, ih]

/-- Row events distribute over trace concatenation. -/
theorem rowIndices_append (l₁ l₂ : List Ev) :
    rowIndices (l₁ ++ l₂) = rowIndices l₁ ++ rowIndices l₂ :=
  List.filterMap_append l₁ l₂ _

/-- The row events of a mapped range are exactly the mapped indices. -/
theorem rowIndices_map_row (f : Nat → Nat) (l : List Nat) :
    rowIndices (l.map fun i => Ev.row (f i)) = l.map f := by
  induction l with
  | nil => rfl
  | cons a t ih =>
    simp only [List.map_cons, rowIndices, List.filterMap_cons]
    exact congrArg _ ih

/-- Claim C1: as stated, the scroll-window invariant fails on the code.
Concrete counterexample: `count = 10`, `max_visible_rows = 5`,
previous `offset = 100`, `highlight = 0`.  The "pin the window to the tail"
branch fires and sets `offset = 5` without ever comparing it against the
highlight, so the recomputed state has `offset = 5 > highlight = 0`. -/
theorem c1_scroll_invariant_counterexample :
    draw_result_text_recompute 10 5 100 0 = ⟨5, 0, 5⟩ ∧
    ¬((draw_result_text_recompute 10 5 100 0).offset ≤
        (draw_result_text_recompute 10 5 100 0).highlight) := by
  decide

/-- Claim C1 (amended): for every input with `count > 0`,
`max_visible_rows ≥ 1` and all values below `2^32`, the recompute always
yields `offset + display_count ≤ count`; and it yields
`offset ≤ highlight ≤ offset + display_count - 1` (stated additively as
`highlight + 1 ≤ offset + display_count`) provided the input additionally
satisfies `count ≤ max_visible_rows`, or `offset + max_visible_rows ≤ count`,
or `count ≤ highlight + max_visible_rows` — i.e. except when the
pin-to-the-tail branch jumps past a highlight that sits above the tail
window. -/
theorem c1_scroll_invariant (count maxRows offset highlight : Nat)
    (hc : 0 < count) (hm : 1 ≤ maxRows)
    (hcb : count < 4294967296) (hmb : maxRows < 4294967296)
    (hob : offset < 4294967296) (hhb : highlight < 4294967296) :
    ∀ o h d : Nat, draw_result_text_recompute count maxRows offset highlight = ⟨o, h, d⟩ →
      o + d ≤ count ∧
      ((count ≤ maxRows ∨ offset + maxRows ≤ count ∨ count ≤ highlight + maxRows) →
        o ≤ h ∧ h + 1 ≤ o + d) := by
  intro o h d H
  unfold draw_result_text_recompute clampHighlight add32 sub32 at H
  split_ifs at H <;> simp only [ScrollOut.mk.injEq] at H <;> omega

/-- Witness for the amended C1 theorem at the concrete input
`count = 10`, `max_visible_rows = 5`, `offset = 3`, `highlight = 7`
(the second guard disjunct `3 + 5 ≤ 10` holds). -/
theorem c1_scroll_invariant_witness :
    (0 < 10 ∧ 1 ≤ 5 ∧ (10 ≤ 5 ∨ 3 + 5 ≤ 10 ∨ 10 ≤ 7 + 5)) ∧
    (3 + 5 ≤ 10 ∧
      ((10 ≤ 5 ∨ 3 + 5 ≤ 10 ∨ 10 ≤ 7 + 5) → 3 ≤ 7 ∧ 7 + 1 ≤ 3 + 5)) :=
  ⟨by decide,
    c1_scroll_invariant 10 5 3 7 (by decide) (by decide) (by decide) (by decide)
      (by decide) (by decide) 3 7 5 (by decide)⟩

/-- Claim C2: at `count = 10`, `max_visible_rows = 5`, previous `offset = 0`,
`highlight = 7`, the scroll-down branch of the recompute sets `offset = 3`
and then `display_results = count - offset = 7`, which exceeds
`max_visible_rows = 5` — contradicting the claimed (and spec-intended)
`display_count = 5`. -/
theorem c2_regression_code_behavior :
    draw_result_text_recompute 10 5 0 7 = ⟨3, 7, 7⟩ ∧
    ¬((draw_result_text_recompute 10 5 0 7).display ≤ 5) := by
  decide

/-- Claim C7: as stated, the panel-height claim fails on the code.
Concrete counterexample: `row_height = 10`, `max_height = 60`
(so `max_visible_rows = 5`) and `result_count = 10`
(so `visible_result_count = 5`).  The claim's value is
`min(10 * (5 + 1), 60) = 60`, but `draw_desc` computes
`desc_height = 10 * (10 + 1) = 110`: it uses the total result count and
applies no cap. -/
theorem c7_desc_height_counterexample :
    draw_desc_height 10 10 = 110 ∧
    min (mul32 10 (add32 (min 10 (max_results 60 10)) 1)) 60 = 60 ∧
    draw_desc_height 10 10 ≠ min (mul32 10 (add32 (min 10 (max_results 60 10)) 1)) 60 := by
  decide

/-- Claim C7 (amended): the panel's height is always
`row_height * (total_result_count + 1)`, uncapped; this agrees with the
claimed `row_height * (visible_result_count + 1)` and respects the maximum
window height (it then equals the window height `new_height`) exactly when
`result_count ≤ max_visible_rows`. -/
theorem c7_desc_height (height count max_height : Nat)
    (hh : 0 < height) (hmh : height ≤ max_height)
    (hb : height * (count + 1) < 4294967296) (hcb : count + 1 < 4294967296)
    (hmb : max_height < 4294967296) :
    draw_desc_height height count = height * (count + 1) ∧
    (count ≤ max_results max_height height →
      draw_desc_height height count = height * (min count (max_results max_height height) + 1) ∧
      draw_desc_height height count ≤ max_height ∧
      draw_desc_height height count = new_height height count max_height) := by
  have e1 : add32 count 1 = count + 1 := by unfold add32; omega
  have e2 : draw_desc_height height count = height * (count + 1) := by
    unfold draw_desc_height mul32
    rw [e1]
    exact Nat.mod_eq_of_lt hb
  refine ⟨e2, fun hcount => ?_⟩
  have hdivle : max_height / height ≤ max_height := Nat.div_le_self _ _
  have hone : 1 ≤ max_height / height := (Nat.one_le_div_iff hh).mpr hmh
  have emr : max_results max_height height = max_height / height - 1 := by
    unfold max_results sub32; omega
  have hc1 : count + 1 ≤ max_height / height := by omega
  have hcap : height * (count + 1) ≤ max_height := by
    have h' := (Nat.le_div_iff_mul_le hh).mp hc1
    rw [Nat.mul_comm]
    exact h'
  have hminc : min count (max_results max_height height) = count :=
    Nat.min_eq_left hcount
  refine ⟨by rw [e2, hminc], by rw [e2]; exact hcap, ?_⟩
  unfold new_height mul32
  rw [e1, Nat.mod_eq_of_lt hb, e2]
  exact (Nat.min_eq_left hcap).symm

/-- Witness for the amended C7 theorem at `row_height = 10`,
`result_count = 3`, `max_height = 60`. -/
theorem c7_desc_height_witness :
    (0 < 10 ∧ 10 ≤ 60 ∧ 3 ≤ max_results 60 10) ∧
    (draw_desc_height 10 3 = 10 * (3 + 1) ∧
      (3 ≤ max_results 60 10 →
        draw_desc_height 10 3 = 10 * (min 3 (max_results 60 10) + 1) ∧
        draw_desc_height 10 3 ≤ 60 ∧
        draw_desc_height 10 3 = new_height 10 3 60)) :=
  ⟨by decide,
    c7_desc_height 10 3 60 (by decide) (by decide) (by decide) (by decide) (by decide)⟩

/-- Claim C8: whenever the highlight index is at least the result count and
the count is positive, the clamp at the top of `draw_result_text` silently
sets the highlight to `count - 1`, which equals `min(highlight, count - 1)`;
the clamp is a total computation with no error path. -/
theorem c8_highlight_clamp (count highlight : Nat)
    (hc : 0 < count) (hcb : count < 4294967296) (hhb : highlight < 4294967296)
    (hover : count ≤ highlight) :
    clampHighlight count highlight = count - 1 ∧
    clampHighlight count highlight = min highlight (count - 1) := by
  unfold clampHighlight sub32
  split_ifs <;> omega

/-- Witness for the C8 theorem at `count = 3`, `highlight = 5`. -/
theorem c8_highlight_clamp_witness :
    (0 < 3 ∧ 3 ≤ 5) ∧
    (clampHighlight 3 5 = 3 - 1 ∧ clampHighlight 3 5 = min 5 (3 - 1)) :=
  ⟨by decide, c8_highlight_clamp 3 5 (by decide) (by decide) (by decide) (by decide)⟩

/-- Claim C3: as stated, the centering claim fails on the code.
Concrete counterexample for the cairo variant of `draw_text` at
`line_width = 100`, run width `20`, current `offset.x = 10`: the claimed
position `offset.x + (W - w)/2 = 10 + 40 = 50`, but the cairo variant
computes `10 + (100 - 10 - 20)/2 = 45`. -/
theorem c3_center_counterexample :
    draw_text_cairo_x [Modifier.CENTER] 100 20 10 = 45 ∧
    add32 10 (sub32 100 20 / 2) = 50 ∧
    draw_text_cairo_x [Modifier.CENTER] 100 20 10 ≠ add32 10 (sub32 100 20 / 2) := by
  decide

/-- Claim C3 (amended): for a CENTER run of width `w` in available width `W`
starting at `x` (no overflow, `x + w ≤ W`), the Pango variant of `draw_text`
positions the run at `x + (W - w)/2` — centered in the remaining available
width — while the cairo variant positions it at `x + (W - x - w)/2`, which
equals `(R - w)/2` for the full line width `R = x + W` (absolute centering);
in both variants the position is unchanged by inserting a BOLD modifier
anywhere in the modifier list. -/
theorem c3_center_position (x W w : Nat) (m₁ m₂ : List Modifier)
    (h1 : x + w ≤ W) (h2 : W < 2147483648) :
    draw_text_pango_x [Modifier.CENTER] W w x = x + (W - w) / 2 ∧
    draw_text_cairo_x [Modifier.CENTER] W w x = x + (W - x - w) / 2 ∧
    draw_text_cairo_x [Modifier.CENTER] W w x = (x + W - w) / 2 ∧
    draw_text_pango_x (m₁ ++ Modifier.BOLD :: m₂) W w x =
      draw_text_pango_x (m₁ ++ m₂) W w x ∧
    draw_text_cairo_x (m₁ ++ Modifier.BOLD :: m₂) W w x =
      draw_text_cairo_x (m₁ ++ m₂) W w x := by
  refine ⟨?_, ?_, ?_, ?_, ?_⟩
  · show add32 x (sub32 W w / 2) = x + (W - w) / 2
    unfold add32 sub32; omega
  · show add32 x (sub32 (sub32 W x) w / 2) = x + (W - x - w) / 2
    unfold add32 sub32; omega
  · show add32 x (sub32 (sub32 W x) w / 2) = (x + W - w) / 2
    unfold add32 sub32; omega
  · unfold draw_text_pango_x
    rw [List.foldl_append, List.foldl_append, List.foldl_cons]
  · unfold draw_text_cairo_x
    rw [List.foldl_append, List.foldl_append, List.foldl_cons]

/-- Witness for the amended C3 theorem at `x = 10`, `W = 100`, `w = 20`,
`m₁ = [CENTER]`, `m₂ = []`. -/
theorem c3_center_position_witness :
    (10 + 20 ≤ 100) ∧
    (draw_text_pango_x [Modifier.CENTER] 100 20 10 = 10 + (100 - 20) / 2 ∧
      draw_text_cairo_x [Modifier.CENTER] 100 20 10 = 10 + (100 - 10 - 20) / 2 ∧
      draw_text_cairo_x [Modifier.CENTER] 100 20 10 = (10 + 100 - 20) / 2 ∧
      draw_text_pango_x ([Modifier.CENTER] ++ Modifier.BOLD :: []) 100 20 10 =
        draw_text_pango_x ([Modifier.CENTER] ++ []) 100 20 10 ∧
      draw_text_cairo_x ([Modifier.CENTER] ++ Modifier.BOLD :: []) 100 20 10 =
        draw_text_cairo_x ([Modifier.CENTER] ++ []) 100 20 10) :=
  ⟨by decide,
    c3_center_position 10 100 20 [Modifier.CENTER] [] (by decide) (by decide)⟩

/-- Claim C4: the no-upscaling contract holds for `get_new_size` itself
(it leaves the passed format untouched when the image fits), but the GDK
flow is a code bug: `draw_image` initializes `format = {0, 0}` and
`draw_image_with_gdk` never sets it to the natural size, so a 3x4 image in
a 10x10 rectangle ends with target dimensions `{0, 0}` (the pixbuf is then
scaled to nothing) instead of the claimed natural size `{3, 4}`. -/
theorem c4_gdk_target_eval :
    draw_image_with_gdk ⟨true, 137, some (3, 4)⟩ 10 10 = ⟨0, 0⟩ ∧
    get_new_size 3 4 10 10 ⟨3, 4⟩ = ⟨3, 4⟩ ∧
    (⟨0, 0⟩ : ImageFormat) ≠ ⟨3, 4⟩ := by
  refine ⟨?_, ?_, by decide⟩
  · show get_new_size 3 4 10 10 ⟨0, 0⟩ = ⟨0, 0⟩
    unfold get_new_size
    rw [if_neg (by omega)]
  · unfold get_new_size
    rw [if_neg (by omega)]

/-- Claim C6: an image draw command whose file cannot be located
(`access` fails), whose magic number is unknown, or whose decode fails
makes `draw_image` return `{0, 0}`, and the `draw_line` loop then advances
the horizontal offset by zero pixels and continues with the remaining
commands of the line. -/
theorem c6_failed_image_skipped (f : FileInfo) (width height x : Nat)
    (rest : List LineCmd) (hx : x < 4294967296)
    (hfail : f.found = false ∨ f.natural = none ∨
      (f.magic ≠ 137 ∧ f.magic ≠ 255 ∧ f.magic ≠ 47)) :
    draw_image f (sub32 width x) height = ⟨0, 0⟩ ∧
    draw_line_run width height x (LineCmd.image f :: rest) =
      draw_line_run width height x rest := by
  obtain ⟨fd, mg, nt⟩ := f
  have h0 : draw_image ⟨fd, mg, nt⟩ (sub32 width x) height = ⟨0, 0⟩ := by
    rcases hfail with hf | hf | hf
    · simp only at hf
      simp [draw_image, hf]
    · simp only at hf
      subst hf
      simp [draw_image, draw_image_with_gdk]
    · simp only at hf
      by_cases hfd : fd = false
      · simp [draw_image, hfd]
      · simp [draw_image, hfd, hf.1, hf.2.1, hf.2.2]
  refine ⟨h0, ?_⟩
  show draw_line_run width height (draw_line_step width height x (LineCmd.image ⟨fd, mg, nt⟩)) rest = _
  simp only [draw_line_step, h0, add32]
  rw [Nat.add_zero, Nat.mod_eq_of_lt hx]

/-- Witness for the C6 theorem: a missing file (magic 137, no decode)
inside a two-command line at `width = 100`, `height = 10`, `x = 5`. -/
theorem c6_failed_image_skipped_witness :
    ((5 : Nat) < 4294967296 ∧
      ((FileInfo.mk false 137 none).found = false ∨
        (FileInfo.mk false 137 none).natural = none ∨
        ((FileInfo.mk false 137 none).magic ≠ 137 ∧
          (FileInfo.mk false 137 none).magic ≠ 255 ∧
          (FileInfo.mk false 137 none).magic ≠ 47))) ∧
    (draw_image ⟨false, 137, none⟩ (sub32 100 5) 10 = ⟨0, 0⟩ ∧
      draw_line_run 100 10 5 [LineCmd.image ⟨false, 137, none⟩, LineCmd.text 7] =
        draw_line_run 100 10 5 [LineCmd.text 7]) :=
  ⟨⟨by decide, Or.inl rfl⟩,
    c6_failed_image_skipped ⟨false, 137, none⟩ 100 10 5 [LineCmd.text 7]
      (by decide) (Or.inl rfl)⟩

/-- Claim C9: as stated, the ordering claim fails on the code, because
`redraw_all` calls `draw_query_text`, which flushes the surface right after
the query line and before any result row is painted.  Concrete
counterexample: `count = 2`, `max_visible_rows = 5`, `offset = 0`,
`highlight = 0`, no description; in the resulting trace a flush (position 1)
precedes the row paints (positions 2 and 3). -/
theorem c9_order_counterexample :
    ¬ flushOnlyAfterRows (redraw_all_trace 2 5 0 0 false) := by
  unfold flushOnlyAfterRows redraw_all_trace draw_result_text_trace
  decide

/-- Claim C9 (amended): within every full repaint, the query line is the
first paint event; the visible result rows are painted top-to-bottom with
strictly increasing result indices (consecutive from the recomputed
offset); the trace ends with a surface flush after the rows (and the
description panel when present); but additionally an intermediate flush
occurs immediately after the query line, before the rows. -/
theorem c9_paint_order (count maxRows offset highlight : Nat) (hasDesc : Bool) :
    (redraw_all_trace count maxRows offset highlight hasDesc).head? = some Ev.query ∧
    List.Pairwise (· < ·)
      (rowIndices (redraw_all_trace count maxRows offset highlight hasDesc)) ∧
    (redraw_all_trace count maxRows offset highlight hasDesc).getLast? = some Ev.flush ∧
    (redraw_all_trace count maxRows offset highlight hasDesc).getD 1 Ev.query = Ev.flush := by
  refine ⟨rfl, ?_, ?_, rfl⟩
  · have hA : rowIndices (if hasDesc then [Ev.desc] else []) = [] := by
      cases hasDesc <;> rfl
    have hrow : rowIndices (redraw_all_trace count maxRows offset highlight hasDesc) =
        (List.range (draw_result_text_recompute count maxRows offset highlight).display).map
          (fun i => (draw_result_text_recompute count maxRows offset highlight).offset + i) := by
      unfold redraw_all_trace draw_result_text_trace
      rw [rowIndices_append, rowIndices_append, rowIndices_append, hA]
      rw [show rowIndices [Ev.query, Ev.flush] = [] from rfl,
        show rowIndices [Ev.flush] = [] from rfl]
      rw [List.nil_append, List.nil_append, List.append_nil]
      exact rowIndices_map_row _ _
    rw [hrow]
    exact (List.pairwise_lt_range _).map _ (fun a b hab => Nat.add_lt_add_left hab _)
  · unfold redraw_all_trace draw_result_text_trace
    rw [← List.append_assoc]
    exact List.getLast?_concat _

/-- Claim C10: every paint call that temporarily writes a terminator byte
into the caller-owned text buffer (`draw_typed_line` at the cursor index,
`draw_line` and `draw_desc` at each run boundary) restores the saved byte
before moving on, so the buffer is byte-for-byte identical after the
call. -/
theorem c10_buffer_restored (text : List Nat) (cursor : Nat)
    (b₁ b₂ : List Nat) :
    draw_typed_line_buf text cursor = text ∧
    draw_line_buf text b₁ = text ∧
    draw_desc_buf text b₂ = text :=
  ⟨truncate_restore_id text cursor, foldl_truncate_restore b₁ text,
    foldl_truncate_restore b₂ text⟩

end Lighthouse
